import Mathlib

/-!
Verification of the statusci Jenkins status widget.

This file gives a shallow embedding of `src/web/JenkinsJobComponent.tsx`
(the polling React component) and of `RestClient` (the HTTP collaborator),
and proves or refutes the specification claims about them.

Conventions used throughout the embedding:
- JavaScript values that may be `undefined`/`null` are modelled as `Option`.
- JavaScript truthiness is made explicit: a string is truthy when non-empty,
  a number when non-zero, `undefined`/`null` are falsy.
- React `setState` performs a shallow merge of the partial state object into
  the current state; `applyUpdate` models exactly that merge.
- Machine numbers (timestamps, intervals) are modelled as `Int`;
  `Math.random()` results and millisecond delays as `Rat`.
-/

/-- JavaScript truthiness of a possibly-undefined string: truthy iff present and non-empty. -/
def strTruthy : Option String → Bool
  | some s => !s.isEmpty
  | none => false

/-- JavaScript string coercion of a possibly-undefined string
(string interpolation and concatenation print `undefined` for a missing value). -/
def strOrUndefined : Option String → String
  | some s => s
  | none => "undefined"

/-- JavaScript truthiness of a possibly-undefined boolean. -/
def boolTruthy : Option Bool → Bool
  | some b => b
  | none => false

/-- JavaScript truthiness of a possibly-undefined number: truthy iff present and non-zero. -/
def intTruthy : Option Int → Bool
  | some n => n != 0
  | none => false

/-- Shallow-merge of one optional field, as performed by React setState:
a field present in the update wins, an absent field keeps the old value. -/
def mergeField {α : Type} : Option α → Option α → Option α
  | some v, _ => some v
  | none, old => old

/-- A reference to a build, as passed opaquely to `client.readBuild`. -/
structure JenkinsBuildRef where
  number : Nat
deriving DecidableEq

/-- A child job reference inside a folder response (`jobs[]` entries): the
component only reads its `name`. -/
structure JenkinsJobRefResponse where
  name : String
deriving DecidableEq

/-- A build-detail response (`readBuild` result): `timestamp` and the
progress-relevant field used by `getProgressPercent`. -/
structure JenkinsBuildResponse where
  timestamp : Int
  progress : Int
deriving DecidableEq

/-- A job-detail response. The TypeScript code treats the single-job and
multi-job shapes as one value probed by field presence, so the embedding is a
single record with optional fields: a single job carries `lastBuild` and
`builds[]`, a folder carries `jobs[]`. `result` and `building` are the
upstream outcome fields consumed by the (spec-modelled) classification
helpers. -/
structure JenkinsResponse where
  displayName : Option String
  url : String
  result : Option String
  building : Bool
  lastBuild : Option JenkinsBuildRef
  builds : Option (List JenkinsBuildRef)
  jobs : Option (List JenkinsJobRefResponse)
deriving DecidableEq

/-- The build-status enum imported from JenkinsClient.ts. -/
inductive JenkinsBuildStatus where
  | SUCCESS
  | WARN
  | ERROR
  | NONE
deriving DecidableEq

/-- Modelled from the spec: `isSingleJob` from JenkinsClient.ts is not under
src; the spec identifies a single-job response by its build list
("determines whether the response is a single-job (has build list)"). -/
def isSingleJob (j : JenkinsResponse) : Bool :=
  j.builds.isSome

/-- Modelled from the spec: `isMultiJob` from JenkinsClient.ts is not under
src; the spec identifies a multi-job (folder) response by its child jobs
("multi-job (has child jobs)", folder shape with `jobs[]`). -/
def isMultiJob (j : JenkinsResponse) : Bool :=
  j.jobs.isSome

/-- Modelled from the spec: `isBuilding` from JenkinsClient.ts is not under
src; the spec describes it as the in-progress flag of the job response. -/
def isBuilding (j : JenkinsResponse) : Bool :=
  j.building

/-- Modelled from the spec: `getBuildStatus` from JenkinsClient.ts is not
under src; the spec derives the enum {SUCCESS, WARN, ERROR, NONE} from the
upstream result of the job response (together with the building flag, which
the display layer consumes separately as the building CSS class). -/
def getBuildStatus (j : JenkinsResponse) : JenkinsBuildStatus :=
  match j.result with
  | some "SUCCESS" => JenkinsBuildStatus.SUCCESS
  | some "UNSTABLE" => JenkinsBuildStatus.WARN
  | some "FAILURE" => JenkinsBuildStatus.ERROR
  | _ => JenkinsBuildStatus.NONE

/-- Modelled from the spec: `getProgressPercent` from JenkinsClient.ts is not
under src; the spec describes it as computing a 0 to 100 progress value from
the build response. -/
def getProgressPercent (b : JenkinsBuildResponse) : Int :=
  min 100 (max 0 b.progress)

namespace Styles

/-- Modelled from the spec: Styles.ts is not under src; the spec names the
four display classes success, warning, error and none. -/
def STATUS_SUCCESS : String := "success"

/-- Modelled from the spec: the warning display class. -/
def STATUS_WARN : String := "warning"

/-- Modelled from the spec: the error display class. -/
def STATUS_ERROR : String := "error"

/-- Modelled from the spec: the none display class. -/
def STATUS_NONE : String := "none"

end Styles

namespace JenkinsJobComponent

/-- Load-status CSS class while a fetch is in flight (source line 13). -/
def LOADING : String := "loading"

/-- Load-status CSS class after a successful fetch (source line 14). -/
def LOADING_DONE : String := "loading-done"

/-- Load-status CSS class after a failed fetch (source line 15). -/
def LOADING_ERROR : String := "loading-error"

end JenkinsJobComponent

/-- The component properties (`JobProperties`): `server` and `id` are declared
required in TypeScript but can be absent at runtime, which the constructor
guards against, so they are modelled as optional. -/
structure JobProperties where
  server : Option String
  id : Option String
  name : Option String
deriving DecidableEq

/-- The constructor guard (source lines 20 to 25): construction throws iff
`server` or `id` is missing or falsy, otherwise it succeeds. -/
def constructorCheck (p : JobProperties) : Except String Unit :=
  if !strTruthy p.server || !strTruthy p.id then
    Except.error "Missing property server and/or name"
  else
    Except.ok ()

/-- The component state. The TypeScript state is a union
`JobState | MultiJobState | LoadingState` discriminated at render time by
field presence; because React setState merges partial objects, the runtime
state is one record whose fields may or may not be present, which is what
this record models. -/
structure CState where
  name : Option String
  loadStatus : Option String
  url : Option String
  buildCount : Option Nat
  buildStatus : Option String
  building : Option Bool
  buildProgress : Option Int
  buildTimestamp : Option Int
  jobs : Option (List JenkinsJobRefResponse)
deriving DecidableEq

/-- The state before the first setState call (all fields absent). -/
def initCState : CState :=
  ⟨none, none, none, none, none, none, none, none, none⟩

/-- React setState semantics: shallow merge of a partial state update `u`
into the current state `s` (a field set in `u` overwrites, an absent field
is kept). -/
def applyUpdate (s u : CState) : CState :=
  ⟨mergeField u.name s.name,
   mergeField u.loadStatus s.loadStatus,
   mergeField u.url s.url,
   mergeField u.buildCount s.buildCount,
   mergeField u.buildStatus s.buildStatus,
   mergeField u.building s.building,
   mergeField u.buildProgress s.buildProgress,
   mergeField u.buildTimestamp s.buildTimestamp,
   mergeField u.jobs s.jobs⟩

/-- Source lines 180 to 190: the display name is taken from the state when
set, else from the name property, else from the id property. -/
def getDisplayNameFromPropOrState (p : JobProperties) (s : CState) : String :=
  if strTruthy s.name then
    (s.name).getD ""
  else if strTruthy p.name then
    (p.name).getD ""
  else
    strOrUndefined p.id

/-- Source lines 130 to 133: name resolution inside loadJob: the explicit
name property, else the displayName of the response, else the id. -/
def resolveName (p : JobProperties) (j : JenkinsResponse) : String :=
  let n : Option String := if strTruthy p.name then p.name else j.displayName
  if strTruthy n then n.getD "" else strOrUndefined p.id

/-- Source lines 201 to 216: maps the build status enum to a display class
string. -/
def asStatusStyle (job : JenkinsResponse) : String :=
  let status : JenkinsBuildStatus := getBuildStatus job
  if status = JenkinsBuildStatus.SUCCESS then
    Styles.STATUS_SUCCESS
  else if status = JenkinsBuildStatus.WARN then
    Styles.STATUS_WARN
  else if status = JenkinsBuildStatus.ERROR then
    Styles.STATUS_ERROR
  else
    Styles.STATUS_NONE

/-- Source line 76: the 6-hour bucket width in milliseconds. -/
def ageIntervalMillis : Int := 6 * 60 * 60 * 1000

/-- Source lines 72 to 84: the age bucket of an elapsed time `t` (now minus
build timestamp) in milliseconds: `Math.round` of the quotient by the 6-hour
interval, clamped below at 0 and above at 5. `Math.round x` equals
`Int.floor (x + 1/2)`, which is Mathlib round on the rationals. -/
def ageBucket (t : Int) : Int :=
  min 5 (max 0 (round ((t : Rat) / (ageIntervalMillis : Rat))))

example : ageBucket 43200000 = 2 := by
  rw [ageBucket, round_eq]; norm_num [ageIntervalMillis]

example : ageBucket (-5) = 0 := by
  rw [ageBucket, round_eq]; norm_num [ageIntervalMillis]

example : ageBucket 999999999999 = 5 := by
  rw [ageBucket, round_eq]; norm_num [ageIntervalMillis]

example : ageBucket 11000000 = 1 := by
  rw [ageBucket, round_eq]; norm_num [ageIntervalMillis]

/-- The outcome of the build-detail fetch `client.readBuild` issued for a
single job: either a build response or a rejection. -/
inductive BuildFetch where
  | ok (b : JenkinsBuildResponse)
  | failed
deriving DecidableEq

/-- The outcome of the job-detail fetch `client.read` of one polling cycle:
either a rejection (network or auth failure) or a job response, together with
the outcome of the build fetch that a single-job response would trigger. -/
inductive FetchOutcome where
  | readErr
  | readOk (job : JenkinsResponse) (bf : BuildFetch)
deriving DecidableEq

/-- The outcome of `loadJob` (source lines 124 to 176): the returned promise
either resolves with a partial state to be merged by setState, or rejects
(the unsupported-format throw in the success handler, or a rejected
`readBuild`, neither of which the error handler of the same then call
catches). -/
inductive LoadOutcome where
  | resolved (u : CState)
  | rejected
deriving DecidableEq

/-- The partial state passed to the first setState of `triggerLoadJob`
(source lines 111 to 114): display name and the loading CSS class. -/
def loadingUpdate (p : JobProperties) (s : CState) : CState :=
  { initCState with
      name := some (getDisplayNameFromPropOrState p s),
      loadStatus := some JenkinsJobComponent.LOADING }

/-- Source lines 124 to 176, `loadJob`. On a rejected `client.read` the error
handler resolves with the error display state. On a response it resolves the
single-job state (after a successful build fetch), the multi-job state, or
throws for an unsupported shape; the throw and a rejected build fetch
propagate as a rejection of the returned promise. -/
def loadJob (p : JobProperties) (s : CState) : FetchOutcome → LoadOutcome
  | FetchOutcome.readErr =>
      LoadOutcome.resolved
        { initCState with
            name := some (getDisplayNameFromPropOrState p s),
            loadStatus := some JenkinsJobComponent.LOADING_ERROR,
            buildStatus := some Styles.STATUS_NONE }
  | FetchOutcome.readOk job bf =>
      if isSingleJob job then
        match bf with
        | BuildFetch.ok build =>
            LoadOutcome.resolved
              { initCState with
                  name := some (resolveName p job),
                  url := some job.url,
                  loadStatus := some JenkinsJobComponent.LOADING_DONE,
                  buildCount := some (match job.builds with
                    | some l => l.length
                    | none => 0),
                  buildStatus := some (asStatusStyle job),
                  building := some (isBuilding job),
                  buildProgress := some (getProgressPercent build),
                  buildTimestamp := some build.timestamp }
        | BuildFetch.failed => LoadOutcome.rejected
      else if isMultiJob job then
        LoadOutcome.resolved
          { initCState with
              name := some (getDisplayNameFromPropOrState p s),
              loadStatus := some JenkinsJobComponent.LOADING_DONE,
              jobs := job.jobs }
      else
        LoadOutcome.rejected

/-- The base refresh interval in milliseconds (source line 17). -/
def refreshInterval : Rat := 5000

/-- Source line 109: the delay until the next cycle, the base interval plus
a random jitter with random draw `r` from the interval zero inclusive to one
exclusive. -/
def jitteredInterval (r : Rat) : Rat :=
  refreshInterval + r * 500

/-- Source lines 107 to 121, `triggerLoadJob`: one polling cycle. Merges the
loading update into the state, runs `loadJob`, merges its resolved state if
any, and in both the then and the catch branch schedules the next cycle
after the jittered delay. Returns the new state and the scheduled delay
(`some` means a retry was scheduled). -/
def cycleStep (p : JobProperties) (s : CState) (o : FetchOutcome) (r : Rat) :
    CState × Option Rat :=
  let s1 : CState := applyUpdate s (loadingUpdate p s)
  match loadJob p s1 o with
  | LoadOutcome.resolved u => (applyUpdate s1 u, some (jitteredInterval r))
  | LoadOutcome.rejected => (s1, some (jitteredInterval r))

/-- Iterated polling cycles over a list of per-cycle inputs (fetch outcome
and random draw). -/
def runCycles (p : JobProperties) (s : CState) : List (FetchOutcome × Rat) → CState
  | [] => s
  | (o, r) :: rest => runCycles p (cycleStep p s o r).1 rest

/-- The three render branches of the component. -/
inductive RenderVariant where
  | jobV
  | multiV
  | loadingV
deriving DecidableEq

/-- Source lines 35 to 46, `render`: the branch taken, discriminated by
truthiness of the buildStatus field, then presence of the jobs field, else
the loading placeholder. -/
def renderVariant (s : CState) : RenderVariant :=
  if strTruthy s.buildStatus then RenderVariant.jobV
  else if s.jobs.isSome then RenderVariant.multiV
  else RenderVariant.loadingV

/-- Source lines 55 to 65, `renderMultiJob`: one child component per entry of
the jobs list, instantiated with the same server and the composed virtual
job id. -/
def renderMultiJob (p : JobProperties) (items : List JenkinsJobRefResponse) :
    List JobProperties :=
  items.map (fun item =>
    { server := p.server,
      id := some (strOrUndefined p.id ++ "/job/" ++ item.name),
      name := none })

/-- Source lines 67 to 105, `renderJob`, restricted to the computed CSS class
string: base classes from loadStatus and buildStatus, the building class
while building, and an age class for a non-building job with a truthy build
timestamp whose bucket is truthy (non-zero). -/
def renderJobClassName (now : Int) (s : CState) : String :=
  let age : Option Int :=
    if !boolTruthy s.building && intTruthy s.buildTimestamp then
      some (ageBucket (now - (s.buildTimestamp).getD 0))
    else
      none
  let cn : String :=
    "status " ++ strOrUndefined s.loadStatus ++ " " ++ strOrUndefined s.buildStatus
  let cn : String := if boolTruthy s.building then cn ++ " building" else cn
  match age with
  | some a => if a != 0 then cn ++ " age-" ++ toString a else cn
  | none => cn

/-- Whether a character list starts with the age class marker, the five
characters space a g e dash. -/
def startsWithAgeMarker : List Char → Bool
  | ' ' :: 'a' :: 'g' :: 'e' :: '-' :: _ => true
  | _ => false

/-- Whether a character list contains the age class marker anywhere. -/
def containsAgeMarker : List Char → Bool
  | [] => false
  | c :: rest => startsWithAgeMarker (c :: rest) || containsAgeMarker rest

/-- Whether a CSS class string carries an age class. -/
def hasAgeClass (s : String) : Bool :=
  containsAgeMarker s.data

/-- The timer and lifecycle state of one widget instance, for the teardown
claim. `pendingTimer` is the handle of the timeout currently scheduled by
`window.setTimeout` if any, `triggerHandle` the handle last stored in the
`_triggerHandle` field (source lines 117 and 119), `fetchInFlight` whether a
`loadJob` promise is unsettled, and `firedAfterUnmount` records whether a
scheduled refresh callback ever ran after `componentWillUnmount`. -/
structure WidgetWorld where
  mounted : Bool
  fetchInFlight : Bool
  pendingTimer : Option Nat
  triggerHandle : Option Nat
  nextHandle : Nat
  firedAfterUnmount : Bool
deriving DecidableEq

/-- The world right after mounting: `componentWillMount` calls
`triggerLoadJob`, which starts a fetch; no timeout is scheduled yet. -/
def initWorld : WidgetWorld :=
  ⟨true, true, none, none, 0, false⟩

/-- The asynchronous events of one widget instance: settlement of the
in-flight fetch (whose then or catch handler calls `window.setTimeout` and
stores the fresh handle, source lines 115 to 120), firing of the scheduled
timeout (which runs `triggerLoadJob` again, starting a new fetch), and
`componentWillUnmount` (which calls `window.clearTimeout` on the stored
handle, source lines 31 to 33). -/
inductive WidgetEvent where
  | fetchSettles
  | timerFires
  | unmount
deriving DecidableEq

/-- One event step of the widget world. An event whose enabling condition
does not hold (no fetch in flight, no pending timeout, already unmounted)
leaves the world unchanged. Promise handlers and timeouts keep running after
unmount, since the source cancels only the timeout handle. -/
def wstep (w : WidgetWorld) : WidgetEvent → WidgetWorld
  | WidgetEvent.fetchSettles =>
      if w.fetchInFlight then
        { w with
            fetchInFlight := false,
            pendingTimer := some w.nextHandle,
            triggerHandle := some w.nextHandle,
            nextHandle := w.nextHandle + 1 }
      else w
  | WidgetEvent.timerFires =>
      match w.pendingTimer with
      | some _ =>
          { w with
              pendingTimer := none,
              fetchInFlight := true,
              firedAfterUnmount := w.firedAfterUnmount || !w.mounted }
      | none => w
  | WidgetEvent.unmount =>
      if w.mounted then
        { w with
            mounted := false,
            pendingTimer :=
              if w.pendingTimer = w.triggerHandle then none else w.pendingTimer }
      else w

/-- Runs a list of events through the widget world. -/
def runW (w : WidgetWorld) : List WidgetEvent → WidgetWorld
  | [] => w
  | e :: es => runW (wstep w e) es

/-- The structured error shape of the REST collaborator (`RestError`):
`asRestError` always supplies all three fields, the interface marks
`message` optional, hence the Option. -/
structure RestError where
  url : String
  code : String
  message : Option String
deriving DecidableEq

/-- The transport response the rest library resolves with: HTTP status code
and text under `status`, and the raw body under `entity` (absent for an
empty body). -/
structure TransportResponse where
  statusCode : Nat
  statusText : String
  entity : Option String
deriving DecidableEq

/-- The shape `asRestError` probes on an arbitrary rejection value: the
value may be nullish; otherwise it may carry a truthy `error` field (the
rest library uses it for network failures), or a `status` object with a
truthy numeric `code` and a `text`. -/
inductive ProbedObj where
  | nullish
  | obj (error : Option String) (status : Option (Nat × String))
deriving DecidableEq

/-- The outcome of the underlying `client(request)` call: a resolved
transport response, or a rejection carrying some object. -/
inductive TransportOutcome where
  | ok (r : TransportResponse)
  | netErr (e : ProbedObj)
deriving DecidableEq

/-- The parsed JSON body. The client never inspects it, so it is carried
opaquely. -/
structure JsonValue where
  raw : String
deriving DecidableEq

/-- The result of `RestClient.request`: the promise resolves with the parsed
body or rejects with a `RestError`. -/
inductive RequestOutcome where
  | resolved (v : JsonValue)
  | rejected (e : RestError)
deriving DecidableEq

/-- Source part_000 lines 65 to 105, `RestClient.asRestError`: a nullish
rejection value or one without usable fields maps to code unknown; a truthy
`error` field becomes the code; a truthy `status.code` becomes the code with
the status text as message, with an appended hint for 404. -/
def asRestError (url : String) (o : ProbedObj) : RestError :=
  match o with
  | ProbedObj.nullish =>
      { url := url, code := "unknown",
        message := some "Check JavaScript console and/or web traffic for more details." }
  | ProbedObj.obj err status =>
      if strTruthy err then
        { url := url, code := err.getD "",
          message := some "Check JavaScript console and/or web traffic for more details." }
      else
        match status with
        | some (code, text) =>
            if code != 0 then
              let text : String :=
                if code = 404 then
                  text ++ "Not found or not authenticated or not authorized."
                else text
              { url := url, code := toString code, message := some text }
            else
              { url := url, code := "unknown",
                message := some "Check JavaScript console and/or web traffic for more details." }
        | none =>
            { url := url, code := "unknown",
              message := some "Check JavaScript console and/or web traffic for more details." }

/-- The probed view of a resolved transport response, as passed to
`asRestError` on the non-200 or empty-body path: no `error` field, a
`status` object with code and text. -/
def probeResponse (r : TransportResponse) : ProbedObj :=
  ProbedObj.obj none (some (r.statusCode, r.statusText))

/-- The probed view of the exception a throwing `JSON.parse` produces: a
SyntaxError object with neither an `error` field nor a `status` field. -/
def parseFailureObj : ProbedObj :=
  ProbedObj.obj none none

/-- Source part_000 lines 20 to 63, `RestClient.request`. `parse` is the
result of the browser builtin `JSON.parse` on the body (`none` models a
throw); the builtin is outside the repository, so its outcome is an input of
the model. With status 200 and a truthy body the promise resolves with the
parsed value; a parse throw falls to the chained catch, which rejects with
the structured error of the exception object; every other response rejects
with the structured error of the response, and a transport rejection with
the structured error of the rejection value. -/
def request (url : String) (o : TransportOutcome) (parse : Option JsonValue) :
    RequestOutcome :=
  match o with
  | TransportOutcome.ok r =>
      if r.statusCode = 200 && strTruthy r.entity then
        match parse with
        | some v => RequestOutcome.resolved v
        | none => RequestOutcome.rejected (asRestError url parseFailureObj)
      else
        RequestOutcome.rejected (asRestError url (probeResponse r))
  | TransportOutcome.netErr e =>
      RequestOutcome.rejected (asRestError url e)

/-- C9: constructing the widget with a missing or falsy server or id throws,
and with both set to non-empty values construction succeeds. -/
theorem constructor_guard_iff (p : JobProperties) :
    constructorCheck p = Except.ok () ↔
      (strTruthy p.server = true ∧ strTruthy p.id = true) := by
  unfold constructorCheck
  rcases hs : strTruthy p.server <;> rcases hi : strTruthy p.id <;> simp

/-- C4: the status classification returns exactly one of the four display
classes (they are pairwise distinct and the result is always among them),
and it is a deterministic function of the result and building pair of the
response. -/
theorem statusStyle_four_classes :
    (∀ j : JenkinsResponse,
      asStatusStyle j = Styles.STATUS_SUCCESS ∨ asStatusStyle j = Styles.STATUS_WARN ∨
      asStatusStyle j = Styles.STATUS_ERROR ∨ asStatusStyle j = Styles.STATUS_NONE) ∧
    [Styles.STATUS_SUCCESS, Styles.STATUS_WARN,
      Styles.STATUS_ERROR, Styles.STATUS_NONE].Pairwise (fun a b => a ≠ b) ∧
    (∀ j1 j2 : JenkinsResponse, j1.result = j2.result → j1.building = j2.building →
      asStatusStyle j1 = asStatusStyle j2) := by
  refine ⟨?_, by decide, ?_⟩
  · intro j
    simp only [asStatusStyle]
    split
    · exact Or.inl rfl
    · split
      · exact Or.inr (Or.inl rfl)
      · split
        · exact Or.inr (Or.inr (Or.inl rfl))
        · exact Or.inr (Or.inr (Or.inr rfl))
  · intro j1 j2 hres _
    have hg : getBuildStatus j1 = getBuildStatus j2 := by
      unfold getBuildStatus
      rw [hres]
    simp only [asStatusStyle]
    rw [hg]

/-- A concrete successful job response used by witnesses. -/
def jobRespA : JenkinsResponse :=
  { displayName := some "Job A", url := "http://jenkins/job/a",
    result := some "SUCCESS", building := false,
    lastBuild := some ⟨7⟩, builds := some [⟨7⟩, ⟨6⟩], jobs := none }

/-- A second job response with the same result and building flag but
different other fields. -/
def jobRespB : JenkinsResponse :=
  { displayName := none, url := "http://jenkins/job/b",
    result := some "SUCCESS", building := false,
    lastBuild := some ⟨1⟩, builds := some [⟨1⟩], jobs := none }

/-- Witness for C4 at concrete responses. -/
theorem statusStyle_four_classes_witness :
    (asStatusStyle jobRespA = Styles.STATUS_SUCCESS ∨
     asStatusStyle jobRespA = Styles.STATUS_WARN ∨
     asStatusStyle jobRespA = Styles.STATUS_ERROR ∨
     asStatusStyle jobRespA = Styles.STATUS_NONE) ∧
    asStatusStyle jobRespA = asStatusStyle jobRespB :=
  ⟨statusStyle_four_classes.1 jobRespA,
   statusStyle_four_classes.2.2 jobRespA jobRespB rfl rfl⟩

/-- C7: every polling cycle, on success and on failure alike, schedules the
next refresh after the jittered delay, and for any random draw in the unit
interval that delay lies between 4500 and 5500 milliseconds. -/
theorem cycle_delay_in_claimed_range (p : JobProperties) (s : CState)
    (o : FetchOutcome) (r : Rat) (h0 : 0 ≤ r) (h1 : r < 1) :
    (cycleStep p s o r).2 = some (jitteredInterval r) ∧
    4500 ≤ jitteredInterval r ∧ jitteredInterval r ≤ 5500 := by
  refine ⟨?_, ?_, ?_⟩
  · simp only [cycleStep]
    split <;> rfl
  · unfold jitteredInterval refreshInterval
    nlinarith
  · unfold jitteredInterval refreshInterval
    nlinarith

/-- Concrete properties used by witnesses. -/
def propsW : JobProperties :=
  ⟨some "srv", some "job1", none⟩

/-- Witness for C7 at a concrete cycle with random draw one half. -/
theorem cycle_delay_in_claimed_range_witness :
    ((0:Rat) ≤ 1/2 ∧ (1/2:Rat) < 1) ∧
    ((cycleStep propsW initCState FetchOutcome.readErr (1/2)).2 =
        some (jitteredInterval (1/2)) ∧
      4500 ≤ jitteredInterval (1/2) ∧ jitteredInterval (1/2) ≤ 5500) :=
  ⟨⟨by norm_num, by norm_num⟩,
   cycle_delay_in_claimed_range propsW initCState FetchOutcome.readErr (1/2)
     (by norm_num) (by norm_num)⟩

/-- C6: the age bucket is monotone in the elapsed time, clamped to the
interval from 0 to 5, and advances in 6-hour steps: at exactly k intervals
of elapsed time the bucket is k, for every k up to the clamp. -/
theorem ageBucket_monotone_clamped_steps :
    (∀ t1 t2 : Int, t1 ≤ t2 → ageBucket t1 ≤ ageBucket t2) ∧
    (∀ t : Int, 0 ≤ ageBucket t ∧ ageBucket t ≤ 5) ∧
    (∀ k : Int, 0 ≤ k → k ≤ 5 → ageBucket (k * ageIntervalMillis) = k) := by
  refine ⟨?_, ?_, ?_⟩
  · intro t1 t2 h
    unfold ageBucket
    apply min_le_min le_rfl
    apply max_le_max le_rfl
    rw [round_eq, round_eq]
    apply Int.floor_le_floor
    have hI : (0:Rat) < ((ageIntervalMillis : Int) : Rat) := by
      norm_num [ageIntervalMillis]
    have ht : (t1:Rat) ≤ (t2:Rat) := by exact_mod_cast h
    have hd : (t1:Rat) / ((ageIntervalMillis : Int) : Rat) ≤
        (t2:Rat) / ((ageIntervalMillis : Int) : Rat) := by gcongr
    linarith
  · intro t
    unfold ageBucket
    constructor
    · exact le_min (by norm_num) (le_max_left 0 _)
    · exact min_le_left _ _
  · intro k hk0 hk5
    unfold ageBucket
    have hI : ((ageIntervalMillis : Int) : Rat) ≠ 0 := by
      norm_num [ageIntervalMillis]
    have hq : ((k * ageIntervalMillis : Int) : Rat) / ((ageIntervalMillis : Int) : Rat) =
        (k : Rat) := by
      push_cast
      rw [mul_div_assoc, div_self hI, mul_one]
    rw [hq, round_intCast, max_eq_right hk0, min_eq_right hk5]

/-- Witness for C6 at concrete elapsed times. -/
theorem ageBucket_monotone_clamped_steps_witness :
    ((0:Int) ≤ 21600000 ∧ ageBucket 0 ≤ ageBucket 21600000) ∧
    (0 ≤ ageBucket 7777777 ∧ ageBucket 7777777 ≤ 5) ∧
    ((0:Int) ≤ 3 ∧ (3:Int) ≤ 5 ∧ ageBucket (3 * ageIntervalMillis) = 3) :=
  ⟨⟨by norm_num, ageBucket_monotone_clamped_steps.1 0 21600000 (by norm_num)⟩,
   ageBucket_monotone_clamped_steps.2.1 7777777,
   ⟨by norm_num, by norm_num,
    ageBucket_monotone_clamped_steps.2.2 3 (by norm_num) (by norm_num)⟩⟩

/-- C5: a multi-job response with N children yields N child component
instances, the i-th carrying the parent server and the composed id parent id
slash job slash child name; and the polling cycle stores exactly the child
list of the response in the state. -/
theorem multiJob_children (p : JobProperties) (items : List JenkinsJobRefResponse)
    (pid : String) (hid : p.id = some pid) :
    (renderMultiJob p items).length = items.length ∧
    (∀ i : Nat, i < items.length →
      ∃ item : JenkinsJobRefResponse, ∃ child : JobProperties,
        items[i]? = some item ∧ (renderMultiJob p items)[i]? = some child ∧
        child.server = p.server ∧ child.id = some (pid ++ "/job/" ++ item.name)) ∧
    (∀ (s : CState) (job : JenkinsResponse) (bf : BuildFetch) (r : Rat),
      isSingleJob job = false → isMultiJob job = true →
      ((cycleStep p s (FetchOutcome.readOk job bf) r).1).jobs = job.jobs) := by
  refine ⟨List.length_map _ _, ?_, ?_⟩
  · intro i hi
    refine ⟨items[i],
      { server := p.server,
        id := some (strOrUndefined p.id ++ "/job/" ++ items[i].name),
        name := none },
      List.getElem?_eq_getElem hi, ?_, rfl, ?_⟩
    · unfold renderMultiJob
      rw [List.getElem?_map, List.getElem?_eq_getElem hi]
      rfl
    · simp [strOrUndefined, hid]
  · intro s job bf r hs hm
    obtain ⟨l, hl⟩ := Option.isSome_iff_exists.mp hm
    simp only [cycleStep, loadJob, hs, hm, Bool.false_eq_true, if_false, if_true,
      applyUpdate]
    simp [mergeField, hl]

/-- A concrete child list used by the C5 witness. -/
def itemsW : List JenkinsJobRefResponse :=
  [⟨"alpha"⟩, ⟨"beta"⟩]

/-- A concrete folder response used by witnesses. -/
def folderResp : JenkinsResponse :=
  { displayName := some "Folder", url := "http://jenkins/job/f",
    result := none, building := false,
    lastBuild := none, builds := none, jobs := some itemsW }

/-- Witness for C5 at a concrete parent and child list. -/
theorem multiJob_children_witness :
    propsW.id = some "job1" ∧
    (renderMultiJob propsW itemsW).length = itemsW.length ∧
    ((1:Nat) < itemsW.length →
      ∃ item : JenkinsJobRefResponse, ∃ child : JobProperties,
        itemsW[1]? = some item ∧ (renderMultiJob propsW itemsW)[1]? = some child ∧
        child.server = propsW.server ∧ child.id = some ("job1" ++ "/job/" ++ item.name)) ∧
    (isSingleJob folderResp = false → isMultiJob folderResp = true →
      ((cycleStep propsW initCState (FetchOutcome.readOk folderResp BuildFetch.failed)
        0).1).jobs = folderResp.jobs) :=
  ⟨rfl,
   (multiJob_children propsW itemsW "job1" rfl).1,
   (multiJob_children propsW itemsW "job1" rfl).2.1 1,
   fun hs hm =>
     (multiJob_children propsW itemsW "job1" rfl).2.2 initCState folderResp
       BuildFetch.failed 0 hs hm⟩

/-- A response of unsupported shape: neither a build list nor child jobs. -/
def unsupportedResp : JenkinsResponse :=
  { displayName := some "Weird", url := "http://jenkins/x",
    result := none, building := false,
    lastBuild := none, builds := none, jobs := none }

/-- Counterexample to C1: a fetch that fails because the response shape is
unsupported (the throw in the success handler of loadJob) does not set the
error display state: the cycle leaves loadStatus at loading and buildStatus
unset, although it does reschedule. -/
theorem unsupported_shape_no_error_state :
    (runCycles propsW initCState
        [(FetchOutcome.readOk unsupportedResp BuildFetch.failed, 0)]).loadStatus =
      some JenkinsJobComponent.LOADING ∧
    (runCycles propsW initCState
        [(FetchOutcome.readOk unsupportedResp BuildFetch.failed, 0)]).loadStatus ≠
      some JenkinsJobComponent.LOADING_ERROR ∧
    (runCycles propsW initCState
        [(FetchOutcome.readOk unsupportedResp BuildFetch.failed, 0)]).buildStatus =
      none ∧
    ((cycleStep propsW initCState
        (FetchOutcome.readOk unsupportedResp BuildFetch.failed) 0).2).isSome = true := by
  decide

/-- C1 amended: every polling cycle reschedules a retry whatever the fetch
outcome, so polling never halts; a rejected read (network or auth failure)
additionally sets the error display state, while an unsupported response
shape or a failed build fetch leaves the loading display state in place. -/
theorem fetch_failure_always_reschedules (p : JobProperties) (s : CState)
    (o : FetchOutcome) (r : Rat) :
    ((cycleStep p s o r).2).isSome = true ∧
    (o = FetchOutcome.readErr →
      (cycleStep p s o r).1.loadStatus = some JenkinsJobComponent.LOADING_ERROR ∧
      (cycleStep p s o r).1.buildStatus = some Styles.STATUS_NONE) := by
  constructor
  · simp only [cycleStep]
    split <;> rfl
  · intro ho
    subst ho
    simp [cycleStep, loadJob, applyUpdate, mergeField, initCState]

/-- Witness for C1 amended at a concrete failing cycle. -/
theorem fetch_failure_always_reschedules_witness :
    ((cycleStep propsW initCState FetchOutcome.readErr (1/4)).2).isSome = true ∧
    (FetchOutcome.readErr = FetchOutcome.readErr →
      (cycleStep propsW initCState FetchOutcome.readErr (1/4)).1.loadStatus =
        some JenkinsJobComponent.LOADING_ERROR ∧
      (cycleStep propsW initCState FetchOutcome.readErr (1/4)).1.buildStatus =
        some Styles.STATUS_NONE) :=
  fetch_failure_always_reschedules propsW initCState FetchOutcome.readErr (1/4)

/-- Counterexample to C2: after a folder response followed by a failed read,
the merged React state satisfies the discriminating conditions of both the
single-job variant (truthy buildStatus) and the multi-job variant (jobs
present) at the same time. -/
theorem two_variant_conditions_simultaneously :
    strTruthy (runCycles propsW initCState
        [(FetchOutcome.readOk folderResp BuildFetch.failed, 0),
         (FetchOutcome.readErr, 0)]).buildStatus = true ∧
    ((runCycles propsW initCState
        [(FetchOutcome.readOk folderResp BuildFetch.failed, 0),
         (FetchOutcome.readErr, 0)]).jobs).isSome = true := by
  decide

/-- C2 amended: the render method always takes exactly one of the three
branches, discriminated in order: the single-job branch iff buildStatus is
truthy, the multi-job branch iff buildStatus is falsy and jobs is present,
the loading branch otherwise (the stored state itself can satisfy several
field conditions after the response shape changes between cycles; state
changes happen only through the polling cycle function). -/
theorem render_selects_exactly_one_variant (s : CState) :
    (renderVariant s = RenderVariant.jobV ↔ strTruthy s.buildStatus = true) ∧
    (renderVariant s = RenderVariant.multiV ↔
      (strTruthy s.buildStatus = false ∧ (s.jobs).isSome = true)) ∧
    (renderVariant s = RenderVariant.loadingV ↔
      (strTruthy s.buildStatus = false ∧ (s.jobs).isSome = false)) := by
  unfold renderVariant
  rcases h1 : strTruthy s.buildStatus <;> rcases h2 : (s.jobs).isSome <;> simp [h1, h2]

/-- Invariant of the widget world: while mounted no refresh callback has
fired after unmount, and the pending timeout handle, when set, is exactly
the handle stored in the trigger-handle field. -/
def WInv (w : WidgetWorld) : Prop :=
  (w.mounted = true → w.firedAfterUnmount = false) ∧
  (w.pendingTimer = none ∨ w.pendingTimer = w.triggerHandle)

/-- The invariant holds initially. -/
lemma winv_init : WInv initWorld := by
  constructor <;> simp [initWorld]

/-- The invariant is preserved by every event. -/
lemma winv_step (w : WidgetWorld) (e : WidgetEvent) (h : WInv w) : WInv (wstep w e) := by
  obtain ⟨h1, h2⟩ := h
  cases e with
  | fetchSettles =>
      unfold wstep
      by_cases hf : w.fetchInFlight = true
      · rw [if_pos hf]
        exact ⟨fun hm => h1 hm, Or.inr rfl⟩
      · rw [if_neg hf]
        exact ⟨h1, h2⟩
  | timerFires =>
      unfold wstep
      rcases hp : w.pendingTimer with _ | t
      · exact ⟨h1, h2⟩
      · refine ⟨fun hm => ?_, Or.inl rfl⟩
        have hfd := h1 hm
        simp only at hm ⊢
        simp [hm, hfd]
  | unmount =>
      unfold wstep
      by_cases hm : w.mounted = true
      · rw [if_pos hm]
        refine ⟨fun hm2 => ?_, ?_⟩
        · simp at hm2
        · by_cases he : w.pendingTimer = w.triggerHandle
          · rw [if_pos he]
            exact Or.inl rfl
          · rcases h2 with h2 | h2
            · rw [if_neg he]
              exact Or.inl h2
            · exact absurd h2 he
      · rw [if_neg hm]
        exact ⟨h1, h2⟩

/-- The invariant holds after any event sequence. -/
lemma winv_run (w : WidgetWorld) (es : List WidgetEvent) (h : WInv w) :
    WInv (runW w es) := by
  induction es generalizing w with
  | nil => exact h
  | cons e es ih => exact ih _ (winv_step w e h)

/-- A dead world (unmounted, no fetch in flight, no pending timeout) is
fixed by every event. -/
lemma wstep_dead (w : WidgetWorld) (hm : w.mounted = false)
    (hf : w.fetchInFlight = false) (hp : w.pendingTimer = none) (e : WidgetEvent) :
    wstep w e = w := by
  cases e with
  | fetchSettles => simp [wstep, hf]
  | timerFires => simp [wstep, hp]
  | unmount => simp [wstep, hm]

/-- A dead world stays dead under any event sequence. -/
lemma runW_dead (w : WidgetWorld) (hm : w.mounted = false)
    (hf : w.fetchInFlight = false) (hp : w.pendingTimer = none)
    (es : List WidgetEvent) : runW w es = w := by
  induction es with
  | nil => rfl
  | cons e es ih => rw [runW, wstep_dead w hm hf hp e, ih]

/-- Counterexample to C3: when the initial fetch is still in flight at
unmount, its completion handler schedules a fresh timeout after teardown and
that refresh callback fires: a scheduled refresh callback of the instance
runs after componentWillUnmount. -/
theorem refresh_fires_after_unmount :
    (runW initWorld
      [WidgetEvent.unmount, WidgetEvent.fetchSettles,
       WidgetEvent.timerFires]).firedAfterUnmount = true := by
  decide

/-- C3 amended: unmounting cancels the currently pending scheduled refresh,
so if no fetch is in flight at teardown, no refresh callback of the instance
ever fires afterwards; only a fetch still in flight at teardown can lead to
a later callback. -/
theorem unmount_cancels_pending_refresh (pre post : List WidgetEvent)
    (hm : (runW initWorld pre).mounted = true)
    (hf : (runW initWorld pre).fetchInFlight = false) :
    (wstep (runW initWorld pre) WidgetEvent.unmount).pendingTimer = none ∧
    (runW (wstep (runW initWorld pre) WidgetEvent.unmount)
        post).firedAfterUnmount = false := by
  have hinv : WInv (runW initWorld pre) := winv_run initWorld pre winv_init
  set w : WidgetWorld := runW initWorld pre with hw
  have hfired : w.firedAfterUnmount = false := hinv.1 hm
  have hpend : (wstep w WidgetEvent.unmount).pendingTimer = none := by
    rcases hinv.2 with h2 | h2
    · by_cases he : w.pendingTimer = w.triggerHandle
      · simp [wstep, hm, he]
      · simp [wstep, hm, he, h2]
    · simp [wstep, hm, h2]
  refine ⟨hpend, ?_⟩
  have hm2 : (wstep w WidgetEvent.unmount).mounted = false := by simp [wstep, hm]
  have hf2 : (wstep w WidgetEvent.unmount).fetchInFlight = false := by
    simp [wstep, hm, hf]
  rw [runW_dead _ hm2 hf2 hpend post]
  simp [wstep, hm, hfired]

/-- Witness for C3 amended: a completed fetch, then unmount, then stray
events; no refresh callback fires after teardown. -/
theorem unmount_cancels_pending_refresh_witness :
    ((runW initWorld [WidgetEvent.fetchSettles]).mounted = true ∧
     (runW initWorld [WidgetEvent.fetchSettles]).fetchInFlight = false) ∧
    ((wstep (runW initWorld [WidgetEvent.fetchSettles])
        WidgetEvent.unmount).pendingTimer = none ∧
     (runW (wstep (runW initWorld [WidgetEvent.fetchSettles]) WidgetEvent.unmount)
        [WidgetEvent.fetchSettles, WidgetEvent.timerFires]).firedAfterUnmount = false) :=
  ⟨⟨by decide, by decide⟩,
   unmount_cancels_pending_refresh [WidgetEvent.fetchSettles]
     [WidgetEvent.fetchSettles, WidgetEvent.timerFires] (by decide) (by decide)⟩

/-- A transport response with status 200 and a non-empty body that is not
valid JSON (the parse input of the model is none for it). -/
def malformedResp : TransportResponse :=
  { statusCode := 200, statusText := "OK", entity := some "oops" }

/-- Counterexample to C8: a 200 response with a non-empty but malformed body
does not resolve; the parse throw reaches the chained catch and the promise
rejects with the unknown structured error, although status is 200 and the
body non-empty. -/
theorem malformed_body_rejects :
    malformedResp.statusCode = 200 ∧ strTruthy malformedResp.entity = true ∧
    request "http://jenkins/api" (TransportOutcome.ok malformedResp) none =
      RequestOutcome.rejected
        { url := "http://jenkins/api", code := "unknown",
          message := some "Check JavaScript console and/or web traffic for more details." } ∧
    (∀ v : JsonValue,
      request "http://jenkins/api" (TransportOutcome.ok malformedResp) none ≠
        RequestOutcome.resolved v) := by
  refine ⟨rfl, rfl, rfl, ?_⟩
  intro v h
  rw [show request "http://jenkins/api" (TransportOutcome.ok malformedResp) none =
      RequestOutcome.rejected
        { url := "http://jenkins/api", code := "unknown",
          message := some "Check JavaScript console and/or web traffic for more details." }
    from rfl] at h
  exact RequestOutcome.noConfusion h

/-- Every structured error built by asRestError carries the requested url
and a set message field. -/
lemma asRestError_fields (url : String) (o : ProbedObj) :
    (asRestError url o).url = url ∧ ((asRestError url o).message).isSome = true := by
  cases o with
  | nullish => exact ⟨rfl, rfl⟩
  | obj err status =>
      simp only [asRestError]
      by_cases he : strTruthy err = true
      · rw [if_pos he]
        exact ⟨rfl, rfl⟩
      · rw [if_neg he]
        rcases status with _ | ⟨c, t⟩
        · exact ⟨rfl, rfl⟩
        · dsimp only
          constructor
          · split <;> rfl
          · split <;> rfl

/-- C8 amended: the request promise resolves with the parsed body exactly
when the transport resolved with status 200, a non-empty body, and the body
parsed as JSON; every other outcome rejects with a structured error carrying
the requested url and a message (the code field is always set by
construction). -/
theorem request_resolves_iff (url : String) (o : TransportOutcome)
    (parse : Option JsonValue) :
    (∀ v : JsonValue,
      request url o parse = RequestOutcome.resolved v ↔
        (∃ r : TransportResponse, o = TransportOutcome.ok r ∧ r.statusCode = 200 ∧
          strTruthy r.entity = true ∧ parse = some v)) ∧
    (∀ e : RestError, request url o parse = RequestOutcome.rejected e →
      e.url = url ∧ (e.message).isSome = true) := by
  constructor
  · intro v
    cases o with
    | ok r =>
        by_cases h200 : r.statusCode = 200
        · by_cases hent : strTruthy r.entity = true
          · cases parse with
            | some v2 => simp [request, h200, hent]
            | none => simp [request, h200, hent]
          · simp [request, h200, hent]
        · simp [request, h200]
    | netErr e => simp [request]
  · intro e he
    cases o with
    | ok r =>
        by_cases h200 : r.statusCode = 200
        · by_cases hent : strTruthy r.entity = true
          · cases parse with
            | some v2 => simp [request, h200, hent] at he
            | none =>
                have hcond : (decide (r.statusCode = 200) && strTruthy r.entity) = true := by
                  simp [h200, hent]
                simp only [request] at he
                rw [if_pos hcond] at he
                injection he with h
                exact h ▸ asRestError_fields url parseFailureObj
          · have hcond : ¬((decide (r.statusCode = 200) && strTruthy r.entity) = true) := by
              simp [hent]
            simp only [request] at he
            rw [if_neg hcond] at he
            injection he with h
            exact h ▸ asRestError_fields url (probeResponse r)
        · have hcond : ¬((decide (r.statusCode = 200) && strTruthy r.entity) = true) := by
            simp [h200]
          simp only [request] at he
          rw [if_neg hcond] at he
          injection he with h
          exact h ▸ asRestError_fields url (probeResponse r)
    | netErr eo =>
        simp only [request] at he
        injection he with h
        exact h ▸ asRestError_fields url eo

/-- A well-formed 200 transport response used by the C8 witness. -/
def okResp : TransportResponse :=
  { statusCode := 200, statusText := "OK", entity := some "x" }

/-- Witness for C8 amended at a concrete resolving request and a concrete
rejecting request. -/
theorem request_resolves_iff_witness :
    (request "u" (TransportOutcome.ok okResp) (some ⟨"x"⟩) =
        RequestOutcome.resolved ⟨"x"⟩ ↔
      (∃ r : TransportResponse, TransportOutcome.ok okResp = TransportOutcome.ok r ∧
        r.statusCode = 200 ∧ strTruthy r.entity = true ∧
        (some (⟨"x"⟩ : JsonValue) : Option JsonValue) = some ⟨"x"⟩)) ∧
    ((asRestError "u" ProbedObj.nullish).url = "u" ∧
     ((asRestError "u" ProbedObj.nullish).message).isSome = true) :=
  ⟨(request_resolves_iff "u" (TransportOutcome.ok okResp) (some ⟨"x"⟩)).1 ⟨"x"⟩,
   (request_resolves_iff "u" (TransportOutcome.netErr ProbedObj.nullish) none).2
     (asRestError "u" ProbedObj.nullish) rfl⟩

/-- The age bucket is never negative. -/
lemma ageBucket_nonneg (t : Int) : 0 ≤ ageBucket t :=
  le_min (by norm_num) (le_max_left 0 _)

/-- The age bucket never exceeds five. -/
lemma ageBucket_le_five (t : Int) : ageBucket t ≤ 5 :=
  min_le_left _ _

/-- C10: a rendered single-job tile carries an age class exactly when the
job is not building, has a truthy build timestamp, and the age bucket lies
between 1 and 5; a building job or a bucket of 0 yields no age class. The
load and build status fields are constrained to the class constants the
component actually stores. -/
theorem ageClass_iff_bucket_positive (now : Int) (s : CState)
    (hl : s.loadStatus ∈ [some JenkinsJobComponent.LOADING,
      some JenkinsJobComponent.LOADING_DONE, some JenkinsJobComponent.LOADING_ERROR])
    (hb : s.buildStatus ∈ [some Styles.STATUS_SUCCESS, some Styles.STATUS_WARN,
      some Styles.STATUS_ERROR, some Styles.STATUS_NONE]) :
    hasAgeClass (renderJobClassName now s) = true ↔
      (boolTruthy s.building = false ∧ intTruthy s.buildTimestamp = true ∧
       1 ≤ ageBucket (now - (s.buildTimestamp).getD 0) ∧
       ageBucket (now - (s.buildTimestamp).getD 0) ≤ 5) := by
  simp only [List.mem_cons, List.mem_singleton, List.not_mem_nil, or_false] at hl hb
  rcases hl with hl | hl | hl <;> rcases hb with hb | hb | hb | hb <;>
    cases hbd : boolTruthy s.building <;>
    cases hts : intTruthy s.buildTimestamp <;>
    simp only [renderJobClassName, hl, hb, hbd, hts, strOrUndefined,
      Bool.not_true, Bool.not_false, Bool.true_and, Bool.false_and,
      Bool.true_eq_false, Bool.false_eq_true, eq_self_iff_true,
      if_true, if_false, ite_true, ite_false,
      true_and, and_true, false_and, and_false, iff_false] <;>
    try decide
  all_goals
    generalize hA : ageBucket (now - (s.buildTimestamp).getD 0) = a
  all_goals
    have h0 : 0 ≤ a := hA ▸ ageBucket_nonneg _
  all_goals
    have h5 : a ≤ 5 := hA ▸ ageBucket_le_five _
  all_goals
    interval_cases a <;> decide

/-- A concrete loaded single-job state used by the C10 witness. -/
def stateW10 : CState :=
  { name := some "Job A", loadStatus := some JenkinsJobComponent.LOADING_DONE,
    url := some "http://jenkins/job/a", buildCount := some 2,
    buildStatus := some Styles.STATUS_SUCCESS, building := some false,
    buildProgress := some 0, buildTimestamp := some 1000, jobs := none }

/-- Witness for C10 at a concrete state and clock value two bucket widths
after the build timestamp. -/
theorem ageClass_iff_bucket_positive_witness :
    (stateW10.loadStatus ∈ [some JenkinsJobComponent.LOADING,
        some JenkinsJobComponent.LOADING_DONE, some JenkinsJobComponent.LOADING_ERROR] ∧
     stateW10.buildStatus ∈ [some Styles.STATUS_SUCCESS, some Styles.STATUS_WARN,
        some Styles.STATUS_ERROR, some Styles.STATUS_NONE]) ∧
    (hasAgeClass (renderJobClassName 43201000 stateW10) = true ↔
      (boolTruthy stateW10.building = false ∧ intTruthy stateW10.buildTimestamp = true ∧
       1 ≤ ageBucket (43201000 - (stateW10.buildTimestamp).getD 0) ∧
       ageBucket (43201000 - (stateW10.buildTimestamp).getD 0) ≤ 5)) :=
  ⟨⟨by decide, by decide⟩,
   ageClass_iff_bucket_positive 43201000 stateW10 (by decide) (by decide)⟩

/-- Witness for C9 at concrete properties with both server and id set. -/
theorem constructor_guard_iff_witness :
    constructorCheck propsW = Except.ok () ↔
      (strTruthy propsW.server = true ∧ strTruthy propsW.id = true) :=
  constructor_guard_iff propsW

/-- Witness for C2 amended at the initial state. -/
theorem render_selects_exactly_one_variant_witness :
    (renderVariant initCState = RenderVariant.jobV ↔
      strTruthy initCState.buildStatus = true) ∧
    (renderVariant initCState = RenderVariant.multiV ↔
      (strTruthy initCState.buildStatus = false ∧ (initCState.jobs).isSome = true)) ∧
    (renderVariant initCState = RenderVariant.loadingV ↔
      (strTruthy initCState.buildStatus = false ∧ (initCState.jobs).isSome = false)) :=
  render_selects_exactly_one_variant initCState
